import Mathlib

/-!
Verification of the RXIQ content-intelligence core: a shallow embedding of
the URL guard (app/services/url_validator.py), the fetcher
(app/services/scraper.py), the text-analytics engine
(app/services/text_analytics.py) and the two-tier result cache
(app/services/cache.py), together with theorems settling the spec claims.

Python strings are modelled as lists of characters (a Python str is a
sequence of code points), Python ints as Int/Nat, and Python float
arithmetic by exact rational arithmetic; the built-in round (banker's
rounding, round half to even) is modelled exactly on rationals.
-/

namespace RXIQ

/-- Model of Python's built-in round-to-integer: round half to even. -/
def pyRound {α : Type} [LinearOrderedField α] [FloorRing α] (x : α) : ℤ :=
  let f := ⌊x⌋
  let frac := x - (f : α)
  if frac < 1/2 then f
  else if 1/2 < frac then f + 1
  else if f % 2 = 0 then f else f + 1

/-- Model of Python's round(x, n): round to n decimal digits, half to even. -/
def roundTo (n : ℕ) (q : ℚ) : ℚ := (pyRound (q * 10 ^ n) : ℚ) / 10 ^ n

/-! ### Text primitives (app/services/text_analytics.py) -/

/-- A Python string: a sequence of code points. -/
abbrev PyStr := List Char

/-- ASCII letter test, the character class of the regex [a-zA-Z]. -/
def isAsciiLetter (c : Char) : Bool :=
  ('a' ≤ c && c ≤ 'z') || ('A' ≤ c && c ≤ 'Z')

/-- Python str.strip / str.isspace whitespace test (common whitespace). -/
def isPySpace (c : Char) : Bool :=
  c = ' ' || c = '\t' || c = '\n' || c = '\r' || c = '\x0b' || c = '\x0c'

/-- str.strip(): drop leading and trailing whitespace. -/
def pyStrip (s : PyStr) : PyStr :=
  ((s.dropWhile isPySpace).reverse.dropWhile isPySpace).reverse

/-- str.lower() restricted to the code's usage (ASCII case folding). -/
def pyLower (s : PyStr) : PyStr := s.map Char.toLower

/-- Maximal runs of characters satisfying p; the accumulator holds the
current run reversed.  Used for regex findall over a character class. -/
def runsAux (p : Char → Bool) : List Char → List Char → List PyStr
  | acc, [] => if acc.isEmpty then [] else [acc.reverse]
  | acc, c :: cs =>
    if p c then runsAux p (c :: acc) cs
    else if acc.isEmpty then runsAux p [] cs
    else acc.reverse :: runsAux p [] cs

/-- _get_words: re.findall of [a-zA-Z]+ — maximal runs of ASCII letters. -/
def getWords (text : PyStr) : List PyStr := runsAux isAsciiLetter [] text

/-- Fragments of a string split at every character satisfying p, keeping
empty fragments (the behaviour of re.split on a single-character class;
splitting on a run [.!?]+ yields the same non-blank fragments). -/
def fragsAux (p : Char → Bool) : List Char → List Char → List PyStr
  | acc, [] => [acc.reverse]
  | acc, c :: cs =>
    if p c then acc.reverse :: fragsAux p [] cs
    else fragsAux p (c :: acc) cs

/-- _count_sentences: split on runs of sentence punctuation and count the
fragments that are non-empty after stripping. -/
def countSentences (text : PyStr) : ℕ :=
  ((fragsAux (fun c => c = '.' || c = '!' || c = '?') [] text).filter
    (fun s => !(pyStrip s).isEmpty)).length

/-- Number of maximal vowel-letter runs; the Bool records whether the
previous character was a vowel. -/
def vowelGroupsAux : Bool → List Char → ℕ
  | _, [] => 0
  | prevVowel, c :: cs =>
    if c = 'a' || c = 'e' || c = 'i' || c = 'o' || c = 'u' || c = 'y' then
      if prevVowel then vowelGroupsAux true cs else 1 + vowelGroupsAux true cs
    else vowelGroupsAux false cs

/-- _count_syllables: lower-case and strip; empty words count 0, words of
length ≤ 3 count 1; otherwise drop one trailing silent e and count vowel
groups, floored at 1. -/
def countSyllables (w : PyStr) : ℕ :=
  let w := pyStrip (pyLower w)
  if w.isEmpty then 0
  else if w.length ≤ 3 then 1
  else
    let w := if w.getLast? = some 'e' then w.dropLast else w
    max 1 (vowelGroupsAux false w)

/-! ### Readability (compute_readability) -/

/-- Python max on two rationals (written explicitly so that concrete
instances reduce inside the kernel). -/
def pyMax (a b : ℚ) : ℚ := if Rat.blt a b then b else a

/-- Python min on two rationals. -/
def pyMin (a b : ℚ) : ℚ := if Rat.blt a b then a else b

/-- ReadabilityScores dataclass. -/
structure ReadabilityScores where
  flesch_reading_ease : ℚ
  flesch_kincaid_grade : ℚ
  coleman_liau_index : ℚ
  automated_readability_index : ℚ
  avg_grade_level : ℚ
  reading_level : String
  sentence_count : ℕ
  word_count : ℕ
  syllable_count : ℕ
  char_count : ℕ
  avg_sentence_length : ℚ
  avg_word_length : ℚ
  avg_syllables_per_word : ℚ
  unique_words : ℕ
  vocabulary_density : ℚ
  complex_word_count : ℕ
  complex_word_pct : ℚ
  reading_time_seconds : ℤ
  reading_time_minutes : ℚ
  deriving Repr, DecidableEq

/-- _reading_level_label: step function from Flesch score to label. -/
def readingLevelLabel (score : ℚ) : String :=
  if score ≥ 90 then "Very Easy (5th grade)"
  else if score ≥ 80 then "Easy (6th grade)"
  else if score ≥ 70 then "Fairly Easy (7th grade)"
  else if score ≥ 60 then "Standard (8th-9th grade)"
  else if score ≥ 50 then "Fairly Difficult (10th-12th grade)"
  else if score ≥ 30 then "Difficult (College)"
  else "Very Difficult (Graduate)"

/-- compute_readability. -/
def computeReadability (text : PyStr) : ReadabilityScores :=
  let words := getWords text
  let word_count := words.length
  let sentence_count := max (countSentences text) 1
  let char_count := (words.map List.length).sum
  let syllable_count := (words.map countSyllables).sum
  let unique_words := ((words.map pyLower).dedup).length
  if word_count < 10 then
    { flesch_reading_ease := 0
      flesch_kincaid_grade := 0
      coleman_liau_index := 0
      automated_readability_index := 0
      avg_grade_level := 0
      reading_level := "Too short to analyze"
      sentence_count := sentence_count
      word_count := word_count
      syllable_count := syllable_count
      char_count := char_count
      avg_sentence_length := 0
      avg_word_length := 0
      avg_syllables_per_word := 0
      unique_words := unique_words
      vocabulary_density := 0
      complex_word_count := 0
      complex_word_pct := 0
      reading_time_seconds := 0
      reading_time_minutes := 0 }
  else
    let asl : ℚ := (word_count : ℚ) / (sentence_count : ℚ)
    let asw : ℚ := (syllable_count : ℚ) / (word_count : ℚ)
    let awl : ℚ := (char_count : ℚ) / (word_count : ℚ)
    let fre := pyMax 0 (pyMin 100 (roundTo 1 (206.835 - (1.015 * asl) - (84.6 * asw))))
    let fkgl := pyMax 0 (roundTo 1 ((0.39 * asl) + (11.8 * asw) - 15.59))
    let llw : ℚ := ((char_count : ℚ) / (word_count : ℚ)) * 100
    let spw : ℚ := ((sentence_count : ℚ) / (word_count : ℚ)) * 100
    let cli := pyMax 0 (roundTo 1 ((0.0588 * llw) - (0.296 * spw) - 15.8))
    let ari := pyMax 0 (roundTo 1 ((4.71 * awl) + (0.5 * asl) - 21.43))
    let avg_grade := roundTo 1 ((fkgl + cli + ari) / 3)
    let vocabulary_density :=
      if word_count > 0 then roundTo 3 ((unique_words : ℚ) / (word_count : ℚ)) else 0
    let complex_word_count := (words.filter (fun w => countSyllables w ≥ 3)).length
    let complex_word_pct := roundTo 1 (((complex_word_count : ℚ) / (word_count : ℚ)) * 100)
    { flesch_reading_ease := fre
      flesch_kincaid_grade := fkgl
      coleman_liau_index := cli
      automated_readability_index := ari
      avg_grade_level := avg_grade
      reading_level := readingLevelLabel fre
      sentence_count := sentence_count
      word_count := word_count
      syllable_count := syllable_count
      char_count := char_count
      avg_sentence_length := roundTo 1 asl
      avg_word_length := roundTo 1 awl
      avg_syllables_per_word := roundTo 2 asw
      unique_words := unique_words
      vocabulary_density := vocabulary_density
      complex_word_count := complex_word_count
      complex_word_pct := complex_word_pct
      reading_time_seconds := pyRound (((word_count : ℚ) / 238) * 60)
      reading_time_minutes := roundTo 1 ((word_count : ℚ) / 238) }

/-! ### Content quality score (compute_content_quality_score) -/

/-- Content depth sub-score (30 pts): word-count brackets. -/
def contentDepthScore (word_count : ℕ) : ℤ :=
  if word_count ≥ 2000 then 30
  else if word_count ≥ 1000 then 25
  else if word_count ≥ 500 then 20
  else if word_count ≥ 300 then 15
  else if word_count ≥ 100 then 8
  else 3

/-- Readability sub-score (20 pts): graduated bands around the optimal
Flesch range, with the override to 12 for scores above 90. -/
def readabilityQScore (flesch : ℚ) : ℤ :=
  let r : ℤ :=
    if 50 ≤ flesch ∧ flesch ≤ 80 then 20
    else if 40 ≤ flesch ∧ flesch ≤ 90 then 15
    else if 30 ≤ flesch then 10
    else 5
  if flesch > 90 then 12 else r

/-- Structure sub-score (20 pts): H1 usage, H2 presence, sentence count. -/
def structureQScore (h1_count h2_count sentence_count : ℕ) : ℤ :=
  (if h1_count = 1 then 8 else if h1_count > 1 then 4 else 0)
    + (if h2_count ≥ 2 then 8 else if h2_count = 1 then 5 else 0)
    + (if sentence_count ≥ 5 then 4 else 2)

/-- Media sub-score (15 pts): image presence plus proportional alt-text
coverage. -/
def mediaQScore (total_images images_without_alt : ℕ) : ℤ :=
  if total_images > 0 then
    8 + pyRound (7 * (((total_images : ℚ) - (images_without_alt : ℚ)) / (total_images : ℚ)))
  else 0

/-- SEO-signals sub-score (15 pts). -/
def seoQScore (has_meta_description has_canonical has_open_graph has_schema_markup : Bool) : ℤ :=
  (if has_meta_description then 5 else 0) + (if has_canonical then 3 else 0)
    + (if has_open_graph then 4 else 0) + (if has_schema_markup then 3 else 0)

/-- The recommendation strings, in the order the code appends them. -/
def qualityRecommendations (word_count : ℕ) (flesch : ℚ)
    (h1_count h2_count total_images images_without_alt : ℕ)
    (has_meta_description has_open_graph has_schema_markup : Bool) : List String :=
  (if word_count < 100 then
    ["Content is very thin. Aim for 500+ words for better engagement."] else [])
  ++ (if word_count < 300 then
    ["Articles under 300 words typically rank poorly in search engines."] else [])
  ++ (if ¬ (50 ≤ flesch ∧ flesch ≤ 80) ∧ ¬ (40 ≤ flesch ∧ flesch ≤ 90) ∧ ¬ (30 ≤ flesch) then
    ["Content is very difficult to read. Simplify sentences and vocabulary."] else [])
  ++ (if flesch > 90 then
    ["Content may be too simplistic for a professional audience."] else [])
  ++ (if h1_count > 1 then
    ["Multiple H1 tags detected. Use exactly one H1 per page."]
    else if h1_count = 0 then
    ["Missing H1 tag. Every page should have a single H1 heading."] else [])
  ++ (if h2_count = 0 then
    ["Add H2 subheadings to break up content and improve scannability."] else [])
  ++ (if total_images > 0 then
       (if images_without_alt > 0 then
         [toString images_without_alt ++
           " image(s) missing alt text. Add descriptive alt attributes."] else [])
      else ["No images found. Adding relevant images improves engagement and SEO."])
  ++ (if ¬ has_meta_description then
    ["Missing meta description. Add one for better search engine snippets."] else [])
  ++ (if ¬ has_open_graph then
    ["Missing Open Graph tags. Add them for better social media sharing."] else [])
  ++ (if ¬ has_schema_markup then
    ["No Schema.org markup found. Add structured data for rich search results."] else [])

/-- Grade-letter ladder on the total. -/
def gradeOf (total : ℤ) : String :=
  if total ≥ 90 then "A+"
  else if total ≥ 80 then "A"
  else if total ≥ 70 then "B"
  else if total ≥ 60 then "C"
  else if total ≥ 50 then "D"
  else "F"

/-- Result of compute_content_quality_score.  Every sub-score in the code
is an integer, so the Python round in total_score and in the breakdown is
the identity; the fields carry the integers directly. -/
structure QualityScore where
  total_score : ℤ
  grade : String
  content_depth : ℤ
  readability : ℤ
  structure_score : ℤ
  media : ℤ
  seo_signals : ℤ
  recommendations : List String
  deriving Repr, DecidableEq

/-- compute_content_quality_score.  internal_links and external_links are
accepted but unused, exactly as in the code. -/
def computeContentQualityScore (word_count sentence_count : ℕ) (flesch_reading_ease : ℚ)
    (h1_count h2_count total_images images_without_alt : ℕ)
    (internal_links external_links : ℕ)
    (has_meta_description has_canonical has_open_graph has_schema_markup : Bool) :
    QualityScore :=
  let depth := contentDepthScore word_count
  let readability := readabilityQScore flesch_reading_ease
  let structure_score := structureQScore h1_count h2_count sentence_count
  let media := mediaQScore total_images images_without_alt
  let seo := seoQScore has_meta_description has_canonical has_open_graph has_schema_markup
  let total := depth + readability + structure_score + media + seo
  { total_score := total
    grade := gradeOf total
    content_depth := depth
    readability := readability
    structure_score := structure_score
    media := media
    seo_signals := seo
    recommendations :=
      (qualityRecommendations word_count flesch_reading_ease h1_count h2_count
        total_images images_without_alt has_meta_description has_open_graph
        has_schema_markup).take 8 }

/-! ### Similarity (compute_similarity)

Only the similarity_score field is modelled; the keyword lists of the
result are not referenced by any claim.  The term-frequency vectors of
Counter(words) assign each distinct word its occurrence count, so the
sums over freq.values() are sums over the deduplicated word list. -/

/-- sum(v**2 for v in freq.values()): the squared magnitude of the
term-frequency vector. -/
def termFreqSq (ws : List PyStr) : ℕ :=
  ((ws.dedup).map (fun w => ws.count w ^ 2)).sum

/-- The dot product over all_terms = set(freq1) | set(freq2); terms missing
from one side contribute freq.get(t, 0) = 0. -/
def simDot (ws1 ws2 : List PyStr) : ℕ :=
  (((ws1 ++ ws2).dedup).map (fun t => ws1.count t * ws2.count t)).sum

/-- round(x, n) on the reals (Python round on the float similarity). -/
noncomputable def roundToReal (n : ℕ) (x : ℝ) : ℝ :=
  (pyRound (x * 10 ^ n) : ℝ) / 10 ^ n

/-- compute_similarity's similarity_score: 0 when either word list is
empty; otherwise dot/(mag1·mag2) when both magnitudes are nonzero, else 0;
rounded to 4 decimal digits. -/
noncomputable def similarityScore (text1 text2 : PyStr) : ℝ :=
  let words1 := getWords text1
  let words2 := getWords text2
  if words1.isEmpty || words2.isEmpty then 0
  else
    let dot : ℝ := (simDot words1 words2 : ℕ)
    let mag1 : ℝ := Real.sqrt (termFreqSq words1 : ℕ)
    let mag2 : ℝ := Real.sqrt (termFreqSq words2 : ℕ)
    let similarity : ℝ := if mag1 ≠ 0 ∧ mag2 ≠ 0 then dot / (mag1 * mag2) else 0
    roundToReal 4 similarity

/-! ### Result cache (app/services/cache.py)

Payloads (dict[str, Any]) are modelled as association lists; a Python
dict is falsy exactly when it is empty.  Keys are modelled as the
(prefix, key_data) pair: _cache_key is a deterministic fingerprint of
that pair and digest collisions are abstracted away.  Time is an explicit
rational parameter; a TTLCache entry written at time t with cache-wide
ttl is readable while now < t + ttl, and redis setex behaves likewise
with the per-call ttl. -/

abbrev Payload := List (String × String)

abbrev CacheKey := String × String

/-- settings.cache_ttl (config.py default). -/
def cacheTtl : ℤ := 3600

/-- The module state: the TTLCache _memory_cache plus the optional redis
client.  redisAvail models _redis_available and a non-None _redis_client;
redisFailing models a connected client whose commands raise. -/
structure CacheState where
  mem : CacheKey → Option (Payload × ℚ)
  redisAvail : Bool
  redis : CacheKey → Option (Payload × ℚ)
  redisFailing : Bool

/-- The memory-tier read: _memory_cache.get(key) followed by the truthiness
test `if value:` — an empty dict stored in the cache is reported as a miss. -/
def memLookup (s : CacheState) (now : ℚ) (k : CacheKey) : Option Payload :=
  match s.mem k with
  | some (v, exp) => if now < exp then (if v.isEmpty then none else some v) else none
  | none => none

/-- get_cached: try redis first (an exception falls through, logged), then
the memory cache.  A redis hit returns json.loads(value); the serialized
form of any dict is a non-empty string, so the `if value:` test on the
redis string never filters a stored payload. -/
def get_cached (s : CacheState) (now : ℚ) (k : CacheKey) : Option Payload :=
  if s.redisAvail && !s.redisFailing then
    match s.redis k with
    | some (v, exp) => if now < exp then some v else memLookup s now k
    | none => memLookup s now k
  else memLookup s now k

/-- set_cached: `ttl = ttl or settings.cache_ttl` (None and 0 both fall
back to the configured default); the memory cache is always written, with
the TTLCache's own cache-wide ttl; redis is written best-effort with the
per-call ttl, and a raising client leaves it unchanged. -/
def set_cached (s : CacheState) (now : ℚ) (k : CacheKey) (v : Payload)
    (ttl : Option ℤ) : CacheState :=
  let effTtl : ℤ := match ttl with
    | none => cacheTtl
    | some t => if t = 0 then cacheTtl else t
  { s with
    mem := fun k2 => if k2 = k then some (v, now + (cacheTtl : ℚ)) else s.mem k2
    redis :=
      if s.redisAvail && !s.redisFailing then
        fun k2 => if k2 = k then some (v, now + (effTtl : ℚ)) else s.redis k2
      else s.redis }

/-! ### URL guard (app/services/url_validator.py)

urlparse is modelled by its scheme/hostname projections together with the
raw URL string (used for pattern matching); user-configured regex patterns
are abstract predicates on the URL; DNS resolution is an explicit
parameter returning parsed IP addresses (socket.gaierror is the error
case, and entries ipaddress.ip_address would reject are already absent).
The error constructors follow the spec taxonomy: both the fixed deny-list
and a user-pattern match reject with blockedHost. -/

/-- A resolved IP address: the numeric value of an IPv4 (< 2^32) or IPv6
(< 2^128) address. -/
inductive IPAddr where
  | v4 (a : ℕ)
  | v6 (a : ℕ)
  deriving DecidableEq, Repr

/-- _BLOCKED_NETWORKS, IPv4 members: (network address, prefix length). -/
def blockedNets4 : List (ℕ × ℕ) :=
  [(0x0A000000, 8), (0xAC100000, 12), (0xC0A80000, 16),
   (0x7F000000, 8), (0xA9FE0000, 16), (0x00000000, 8)]

/-- _BLOCKED_NETWORKS, IPv6 members: ::1/128, fc00::/7, fe80::/10. -/
def blockedNets6 : List (ℕ × ℕ) :=
  [(1, 128), (0xfc00 * 2 ^ 112, 7), (0xfe80 * 2 ^ 112, 10)]

/-- ip in network: the addresses agree on the first prefixLen bits.
An IPv4 address is never a member of an IPv6 network and vice versa. -/
def isBlockedIp (ip : IPAddr) : Bool :=
  match ip with
  | .v4 a => blockedNets4.any (fun bp => a / 2 ^ (32 - bp.2) = bp.1 / 2 ^ (32 - bp.2))
  | .v6 a => blockedNets6.any (fun bp => a / 2 ^ (128 - bp.2) = bp.1 / 2 ^ (128 - bp.2))

/-- _ALWAYS_BLOCKED_HOSTS. -/
def alwaysBlockedHosts : List String :=
  ["metadata.google.internal", "169.254.169.254", "metadata.azure.internal"]

/-- The relevant projections of urlparse(url). -/
structure UrlParts where
  scheme : String
  hostname : Option String
  raw : String

/-- URLValidationError, split by reason following the spec taxonomy. -/
inductive ValidationError where
  | invalidScheme
  | missingHost
  | blockedHost
  | blockedNetwork
  | unresolvableHost
  deriving DecidableEq, Repr

/-- hostname.lower() (ASCII case folding). -/
def lowerS (s : String) : String := ⟨pyLower s.data⟩

/-- validate_url: scheme check, hostname presence (`not hostname` covers
both an absent and an empty hostname), fixed deny-list, user patterns,
then resolution and the per-address network check; any blocked resolved
address rejects, resolution failure rejects with unresolvableHost. -/
def validate_url (u : UrlParts) (patterns : List (String → Bool))
    (resolve : String → Except Unit (List IPAddr)) : Except ValidationError String :=
  if ¬ (u.scheme = "http" ∨ u.scheme = "https") then .error .invalidScheme
  else
    match u.hostname with
    | none => .error .missingHost
    | some host =>
      if host = "" then .error .missingHost
      else if lowerS host ∈ alwaysBlockedHosts then .error .blockedHost
      else if patterns.any (fun p => p u.raw) then .error .blockedHost
      else
        match resolve host with
        | .error _ => .error .unresolvableHost
        | .ok ips =>
          if ips.any isBlockedIp then .error .blockedNetwork else .ok u.raw

/-! ### Fetcher (app/services/scraper.py, fetch_html)

The httpx client with follow_redirects=True is modelled as a function from
the requested URL to the final response (status, content-type header with
"" default, text body, post-redirect URL).  raise_for_status raises
exactly for status codes ≥ 400. -/

/-- Does pat occur at the start of s? -/
def listStartsWith : List Char → List Char → Bool
  | _, [] => true
  | [], _ :: _ => false
  | c :: cs, d :: ds => c = d && listStartsWith cs ds

/-- Python's `pat in s` substring test. -/
def listHasSub : List Char → List Char → Bool
  | [], pat => pat.isEmpty
  | c :: rest, pat => listStartsWith (c :: rest) pat || listHasSub rest pat

/-- The response the redirect-following GET produced. -/
structure HttpResponse where
  status : ℕ
  contentType : PyStr
  body : PyStr
  finalUrl : String

/-- Errors of fetch_html; the ValueError raised for a bad content-type or
an oversized body is split by reason following the spec taxonomy. -/
inductive FetchError where
  | validationFailed (e : ValidationError)
  | upstreamStatus (code : ℕ)
  | unsupportedContentType
  | responseTooLarge
  deriving DecidableEq, Repr

/-- fetch_html: validate the requested URL, perform the redirect-following
GET, raise for an error status, reject a non-empty content-type that
mentions neither "html" nor "text", reject bodies over 10 MB, and return
(response.text, str(response.url)). -/
def fetch_html (u : UrlParts) (patterns : List (String → Bool))
    (resolve : String → Except Unit (List IPAddr))
    (net : String → HttpResponse) : Except FetchError (PyStr × String) :=
  match validate_url u patterns resolve with
  | .error e => .error (.validationFailed e)
  | .ok _ =>
    let r := net u.raw
    if 400 ≤ r.status then .error (.upstreamStatus r.status)
    else if !r.contentType.isEmpty
        && !listHasSub (pyLower r.contentType) "html".data
        && !listHasSub (pyLower r.contentType) "text".data then
      .error .unsupportedContentType
    else if r.body.length > 10000000 then .error .responseTooLarge
    else .ok (r.body, r.finalUrl)

/-! ### Concrete instances used by witnesses and counterexamples -/

/-- A URL whose host resolves to a publicly routable address
(93.184.216.34 = 1572395042). -/
def pubUrl : UrlParts := ⟨"http", some "public.example", "http://public.example/"⟩

/-- A resolver knowing the public host and the loopback literal. -/
def demoResolve : String → Except Unit (List IPAddr) := fun h =>
  if h = "public.example" then .ok [.v4 1572395042]
  else if h = "127.0.0.1" then .ok [.v4 0x7F000001]
  else .error ()

/-- A network in which the requested URL redirects to a loopback host and
serves HTML from there. -/
def redirectingNet : String → HttpResponse :=
  fun _ => ⟨200, "text/html".data, "internal-secret".data, "http://127.0.0.1/"⟩

/-- A response that declares no content-type at all (the header default
is the empty string). -/
def emptyCtNet : String → HttpResponse :=
  fun _ => ⟨200, [], "raw-pdf-bytes".data, "http://public.example/"⟩

/-- A response declaring a JSON content-type. -/
def jsonNet : String → HttpResponse :=
  fun _ => ⟨200, "application/json".data, "jsonbody".data, "http://public.example/"⟩

/-- The cache state of the default configuration: no REDIS_URL, so the
shared tier is unavailable and only the memory tier serves. -/
def memOnlyState : CacheState := ⟨fun _ => none, false, fun _ => none, false⟩

/-- A cache state whose redis client is connected but failing: every
command raises. -/
def failingRedisState : CacheState := ⟨fun _ => none, true, fun _ => none, true⟩

/-- Ten two-syllable words in one sentence: ASL = 10, ASW = 2, so the raw
Flesch value 206.835 − 10.15 − 169.2 = 27.485 is strictly between its
rounded value 27.5 and shows the rounding step. -/
def helloTen : String :=
  "hello hello hello hello hello hello hello hello hello hello."

/-! ### Helper lemmas -/

theorem pyRound_nonneg {α : Type} [LinearOrderedField α] [FloorRing α]
    {x : α} (h : 0 ≤ x) : 0 ≤ pyRound x := by
  have hf : (0 : ℤ) ≤ ⌊x⌋ := Int.floor_nonneg.mpr h
  unfold pyRound
  dsimp only
  split_ifs <;> omega

theorem pyRound_le_ceil {α : Type} [LinearOrderedField α] [FloorRing α]
    (x : α) : pyRound x ≤ ⌈x⌉ := by
  have hfc : ⌊x⌋ ≤ ⌈x⌉ := Int.floor_le_ceil x
  have hkey : ¬ (x - (⌊x⌋ : α) < 1/2) → ⌊x⌋ + 1 ≤ ⌈x⌉ := by
    intro h
    have hpos : (⌊x⌋ : α) < x := by
      have : (0 : α) < 1/2 := by norm_num
      nlinarith [not_lt.mp h]
    have hlt : (⌊x⌋ : α) < (⌈x⌉ : α) := lt_of_lt_of_le hpos (Int.le_ceil x)
    exact_mod_cast hlt
  unfold pyRound
  dsimp only
  split_ifs with h1 h2 h3
  · exact hfc
  · exact hkey h1
  · exact hfc
  · exact hkey h1

theorem rat_blt_iff (a b : ℚ) : Rat.blt a b = true ↔ a < b := Iff.rfl

theorem pyMax_eq_max (a b : ℚ) : pyMax a b = max a b := by
  unfold pyMax
  rcases lt_or_le a b with h | h
  · rw [if_pos ((rat_blt_iff a b).mpr h), max_eq_right h.le]
  · have hnb : ¬ (Rat.blt a b = true) := by rw [rat_blt_iff]; exact not_lt.mpr h
    rw [if_neg hnb, max_eq_left h]

theorem pyMin_eq_min (a b : ℚ) : pyMin a b = min a b := by
  unfold pyMin
  rcases lt_or_le a b with h | h
  · rw [if_pos ((rat_blt_iff a b).mpr h), min_eq_left h.le]
  · have hnb : ¬ (Rat.blt a b = true) := by rw [rat_blt_iff]; exact not_lt.mpr h
    rw [if_neg hnb, min_eq_right h]

/-! ### Claim theorems -/

section

attribute [local semireducible] Rat.add Rat.mul Rat.sub Rat.inv Rat.ofScientific

/-- C4 counterexample: "hello" has fewer than 10 words, but the code's
reading-level label is "Too short to analyze", not the claimed lowercase
"too short to analyze". -/
theorem C4_claim_counterexample :
    (getWords "hello".data).length < 10
    ∧ (computeReadability "hello".data).reading_level ≠ "too short to analyze"
    ∧ (computeReadability "hello".data).reading_level = "Too short to analyze" := by
  exact ⟨by decide, by decide, by decide⟩

/-- C4 (amended): for every text of fewer than 10 words, every derived
readability score of compute_readability is zero and the reading-level
label is "Too short to analyze" (capitalized as in the code). -/
theorem C4_short_text_all_zero (t : PyStr) (h : (getWords t).length < 10) :
    (computeReadability t).flesch_reading_ease = 0
    ∧ (computeReadability t).flesch_kincaid_grade = 0
    ∧ (computeReadability t).coleman_liau_index = 0
    ∧ (computeReadability t).automated_readability_index = 0
    ∧ (computeReadability t).avg_grade_level = 0
    ∧ (computeReadability t).avg_sentence_length = 0
    ∧ (computeReadability t).avg_word_length = 0
    ∧ (computeReadability t).avg_syllables_per_word = 0
    ∧ (computeReadability t).vocabulary_density = 0
    ∧ (computeReadability t).complex_word_count = 0
    ∧ (computeReadability t).complex_word_pct = 0
    ∧ (computeReadability t).reading_time_seconds = 0
    ∧ (computeReadability t).reading_time_minutes = 0
    ∧ (computeReadability t).reading_level = "Too short to analyze" := by
  simp [computeReadability, h]

/-- C4 witness: the theorem applied to the two-word text "hello world". -/
theorem C4_short_text_all_zero_witness :
    (getWords "hello world".data).length < 10
    ∧ ((computeReadability "hello world".data).flesch_reading_ease = 0
      ∧ (computeReadability "hello world".data).flesch_kincaid_grade = 0
      ∧ (computeReadability "hello world".data).coleman_liau_index = 0
      ∧ (computeReadability "hello world".data).automated_readability_index = 0
      ∧ (computeReadability "hello world".data).avg_grade_level = 0
      ∧ (computeReadability "hello world".data).avg_sentence_length = 0
      ∧ (computeReadability "hello world".data).avg_word_length = 0
      ∧ (computeReadability "hello world".data).avg_syllables_per_word = 0
      ∧ (computeReadability "hello world".data).vocabulary_density = 0
      ∧ (computeReadability "hello world".data).complex_word_count = 0
      ∧ (computeReadability "hello world".data).complex_word_pct = 0
      ∧ (computeReadability "hello world".data).reading_time_seconds = 0
      ∧ (computeReadability "hello world".data).reading_time_minutes = 0
      ∧ (computeReadability "hello world".data).reading_level = "Too short to analyze") :=
  ⟨by decide, C4_short_text_all_zero "hello world".data (by decide)⟩

/-- C5 counterexample: on a ten-word text the code's Flesch Reading Ease
(27.5, rounded to one decimal before clamping) differs from the claimed
clamp of the raw formula value (27.485). -/
theorem C5_claim_counterexample :
    ¬ (getWords helloTen.data).length < 10
    ∧ (computeReadability helloTen.data).flesch_reading_ease
        ≠ max 0 (min 100 (206.835
            - 1.015 * (((getWords helloTen.data).length : ℚ)
                / ((max (countSentences helloTen.data) 1 : ℕ) : ℚ))
            - 84.6 * ((((getWords helloTen.data).map countSyllables).sum : ℚ)
                / ((getWords helloTen.data).length : ℚ)))) := by
  constructor
  · decide
  · rw [← pyMax_eq_max, ← pyMin_eq_min]
    decide

/-- C5 (amended): for every text of at least 10 words, the Flesch Reading
Ease equals the clamp to [0,100] of the formula value rounded to one
decimal digit — hence lies in [0,100] — and each grade estimator equals
max(0, round₁(formula)) — hence is nonnegative. -/
theorem C5_readability_formulas (t : PyStr) (h : ¬ (getWords t).length < 10) :
    let wc : ℚ := ((getWords t).length : ℚ)
    let sc : ℚ := ((max (countSentences t) 1 : ℕ) : ℚ)
    let syl : ℚ := (((getWords t).map countSyllables).sum : ℚ)
    let cc : ℚ := (((getWords t).map List.length).sum : ℚ)
    (computeReadability t).flesch_reading_ease
        = max 0 (min 100 (roundTo 1 (206.835 - (1.015 * (wc / sc)) - (84.6 * (syl / wc)))))
    ∧ 0 ≤ (computeReadability t).flesch_reading_ease
    ∧ (computeReadability t).flesch_reading_ease ≤ 100
    ∧ (computeReadability t).flesch_kincaid_grade
        = max 0 (roundTo 1 ((0.39 * (wc / sc)) + (11.8 * (syl / wc)) - 15.59))
    ∧ 0 ≤ (computeReadability t).flesch_kincaid_grade
    ∧ (computeReadability t).coleman_liau_index
        = max 0 (roundTo 1 ((0.0588 * ((cc / wc) * 100)) - (0.296 * ((sc / wc) * 100)) - 15.8))
    ∧ 0 ≤ (computeReadability t).coleman_liau_index
    ∧ (computeReadability t).automated_readability_index
        = max 0 (roundTo 1 ((4.71 * (cc / wc)) + (0.5 * (wc / sc)) - 21.43))
    ∧ 0 ≤ (computeReadability t).automated_readability_index := by
  refine ⟨?_, ?_, ?_, ?_, ?_, ?_, ?_, ?_, ?_⟩
  · simp [computeReadability, h, pyMax_eq_max, pyMin_eq_min]
  · simp [computeReadability, h, pyMax_eq_max, pyMin_eq_min]
  · simp only [computeReadability, h, if_false]
    rw [pyMax_eq_max, pyMin_eq_min]
    exact max_le (by norm_num) (min_le_left _ _)
  · simp [computeReadability, h, pyMax_eq_max]
  · simp [computeReadability, h, pyMax_eq_max]
  · simp [computeReadability, h, pyMax_eq_max]
  · simp [computeReadability, h, pyMax_eq_max]
  · simp [computeReadability, h, pyMax_eq_max]
  · simp [computeReadability, h, pyMax_eq_max]

/-- C5 witness: the theorem applied to the ten-word text helloTen. -/
theorem C5_readability_formulas_witness :
    ¬ (getWords helloTen.data).length < 10
    ∧ (let wc : ℚ := ((getWords helloTen.data).length : ℚ)
      let sc : ℚ := ((max (countSentences helloTen.data) 1 : ℕ) : ℚ)
      let syl : ℚ := (((getWords helloTen.data).map countSyllables).sum : ℚ)
      let cc : ℚ := (((getWords helloTen.data).map List.length).sum : ℚ)
      (computeReadability helloTen.data).flesch_reading_ease
          = max 0 (min 100 (roundTo 1 (206.835 - (1.015 * (wc / sc)) - (84.6 * (syl / wc)))))
      ∧ 0 ≤ (computeReadability helloTen.data).flesch_reading_ease
      ∧ (computeReadability helloTen.data).flesch_reading_ease ≤ 100
      ∧ (computeReadability helloTen.data).flesch_kincaid_grade
          = max 0 (roundTo 1 ((0.39 * (wc / sc)) + (11.8 * (syl / wc)) - 15.59))
      ∧ 0 ≤ (computeReadability helloTen.data).flesch_kincaid_grade
      ∧ (computeReadability helloTen.data).coleman_liau_index
          = max 0 (roundTo 1 ((0.0588 * ((cc / wc) * 100)) - (0.296 * ((sc / wc) * 100)) - 15.8))
      ∧ 0 ≤ (computeReadability helloTen.data).coleman_liau_index
      ∧ (computeReadability helloTen.data).automated_readability_index
          = max 0 (roundTo 1 ((4.71 * (cc / wc)) + (0.5 * (wc / sc)) - 21.43))
      ∧ 0 ≤ (computeReadability helloTen.data).automated_readability_index) :=
  ⟨by decide, C5_readability_formulas helloTen.data (by decide)⟩

theorem contentDepthScore_bounds (wc : ℕ) :
    3 ≤ contentDepthScore wc ∧ contentDepthScore wc ≤ 30 := by
  unfold contentDepthScore; split_ifs <;> omega

theorem readabilityQScore_bounds (f : ℚ) :
    5 ≤ readabilityQScore f ∧ readabilityQScore f ≤ 20 := by
  unfold readabilityQScore; dsimp only; split_ifs <;> omega

theorem structureQScore_bounds (h1 h2 sc : ℕ) :
    2 ≤ structureQScore h1 h2 sc ∧ structureQScore h1 h2 sc ≤ 20 := by
  unfold structureQScore; split_ifs <;> omega

theorem seoQScore_bounds (m c o sm : Bool) :
    0 ≤ seoQScore m c o sm ∧ seoQScore m c o sm ≤ 15 := by
  unfold seoQScore; split_ifs <;> omega

theorem mediaQScore_bounds (ti iwa : ℕ) (h : iwa ≤ ti) :
    0 ≤ mediaQScore ti iwa ∧ mediaQScore ti iwa ≤ 15 := by
  unfold mediaQScore
  split_ifs with hpos
  · have hti : (0 : ℚ) < (ti : ℚ) := by exact_mod_cast hpos
    have hfrac0 : (0 : ℚ) ≤ ((ti : ℚ) - (iwa : ℚ)) / (ti : ℚ) := by
      apply div_nonneg _ hti.le
      have : (iwa : ℚ) ≤ (ti : ℚ) := by exact_mod_cast h
      linarith
    have hfrac1 : ((ti : ℚ) - (iwa : ℚ)) / (ti : ℚ) ≤ 1 := by
      rw [div_le_one hti]
      have : (0 : ℚ) ≤ (iwa : ℚ) := by positivity
      linarith
    have h0 : 0 ≤ pyRound (7 * (((ti : ℚ) - (iwa : ℚ)) / (ti : ℚ))) :=
      pyRound_nonneg (by linarith)
    have h7 : pyRound (7 * (((ti : ℚ) - (iwa : ℚ)) / (ti : ℚ))) ≤ 7 := by
      have hle := pyRound_le_ceil (α := ℚ) (7 * (((ti : ℚ) - (iwa : ℚ)) / (ti : ℚ)))
      have hc : ⌈(7 * (((ti : ℚ) - (iwa : ℚ)) / (ti : ℚ)))⌉ ≤ 7 := by
        apply Int.ceil_le.mpr
        push_cast
        linarith
      omega
    omega
  · omega

/-- C6: for every input combination (with the structural invariant that at
most all images lack alt text), the quality-score total lies in [0,100],
each sub-score respects its cap (30/20/20/15/15), and at most 8
recommendations are returned. -/
theorem C6_quality_score_caps (wc sc : ℕ) (f : ℚ) (h1 h2 ti iwa il el : ℕ)
    (m c o sm : Bool) (h : iwa ≤ ti) :
    0 ≤ (computeContentQualityScore wc sc f h1 h2 ti iwa il el m c o sm).total_score
    ∧ (computeContentQualityScore wc sc f h1 h2 ti iwa il el m c o sm).total_score ≤ 100
    ∧ (computeContentQualityScore wc sc f h1 h2 ti iwa il el m c o sm).content_depth ≤ 30
    ∧ (computeContentQualityScore wc sc f h1 h2 ti iwa il el m c o sm).readability ≤ 20
    ∧ (computeContentQualityScore wc sc f h1 h2 ti iwa il el m c o sm).structure_score ≤ 20
    ∧ (computeContentQualityScore wc sc f h1 h2 ti iwa il el m c o sm).media ≤ 15
    ∧ (computeContentQualityScore wc sc f h1 h2 ti iwa il el m c o sm).seo_signals ≤ 15
    ∧ (computeContentQualityScore wc sc f h1 h2 ti iwa il el m c o sm).recommendations.length ≤ 8 := by
  obtain ⟨d1, d2⟩ := contentDepthScore_bounds wc
  obtain ⟨r1, r2⟩ := readabilityQScore_bounds f
  obtain ⟨s1, s2⟩ := structureQScore_bounds h1 h2 sc
  obtain ⟨e1, e2⟩ := seoQScore_bounds m c o sm
  obtain ⟨m1, m2⟩ := mediaQScore_bounds ti iwa h
  refine ⟨?_, ?_, ?_, ?_, ?_, ?_, ?_, ?_⟩ <;>
    simp only [computeContentQualityScore]
  · omega
  · omega
  · omega
  · omega
  · omega
  · omega
  · omega
  · exact List.length_take_le 8 _

/-- C6 witness: the theorem applied to a concrete article profile. -/
theorem C6_quality_score_caps_witness :
    (1 : ℕ) ≤ 3
    ∧ (0 ≤ (computeContentQualityScore 800 12 (65 : ℚ) 1 3 3 1 20 5 true true true false).total_score
      ∧ (computeContentQualityScore 800 12 (65 : ℚ) 1 3 3 1 20 5 true true true false).total_score ≤ 100
      ∧ (computeContentQualityScore 800 12 (65 : ℚ) 1 3 3 1 20 5 true true true false).content_depth ≤ 30
      ∧ (computeContentQualityScore 800 12 (65 : ℚ) 1 3 3 1 20 5 true true true false).readability ≤ 20
      ∧ (computeContentQualityScore 800 12 (65 : ℚ) 1 3 3 1 20 5 true true true false).structure_score ≤ 20
      ∧ (computeContentQualityScore 800 12 (65 : ℚ) 1 3 3 1 20 5 true true true false).media ≤ 15
      ∧ (computeContentQualityScore 800 12 (65 : ℚ) 1 3 3 1 20 5 true true true false).seo_signals ≤ 15
      ∧ (computeContentQualityScore 800 12 (65 : ℚ) 1 3 3 1 20 5 true true true false).recommendations.length ≤ 8) :=
  ⟨by decide, C6_quality_score_caps 800 12 (65 : ℚ) 1 3 3 1 20 5 true true true false (by decide)⟩

theorem sum_map_dedup {α : Type} [DecidableEq α] (l : List α) (f : α → ℕ) :
    (l.dedup.map f).sum = ∑ x ∈ l.toFinset, f x := by
  rw [Finset.sum, List.toFinset_val]
  simp [Multiset.map_coe, Multiset.sum_coe]

theorem termFreqSq_eq_finset (ws : List PyStr) :
    termFreqSq ws = ∑ x ∈ ws.toFinset, ws.count x ^ 2 := by
  unfold termFreqSq
  rw [sum_map_dedup]

theorem simDot_self (ws : List PyStr) : simDot ws ws = termFreqSq ws := by
  unfold simDot
  rw [sum_map_dedup, termFreqSq_eq_finset, List.toFinset_append, Finset.union_self]
  exact Finset.sum_congr rfl (fun x _ => by ring)

theorem pyRound_intCast {α : Type} [LinearOrderedField α] [FloorRing α] (n : ℤ) :
    pyRound (n : α) = n := by
  unfold pyRound
  dsimp only
  rw [Int.floor_intCast]
  have h : (n : α) - (n : α) = 0 := by ring
  rw [h]
  norm_num

theorem termFreqSq_ne_zero {ws : List PyStr} (hw : ws ≠ []) : termFreqSq ws ≠ 0 := by
  rw [termFreqSq_eq_finset]
  intro hz
  rcases ws with _ | ⟨w, rest⟩
  · exact hw rfl
  · have hmem : w ∈ (w :: rest).toFinset := by simp
    have h0 := (Finset.sum_eq_zero_iff.mp hz) w hmem
    simp [pow_eq_zero_iff, List.count_cons] at h0

theorem similarityScore_self {t : PyStr} (hw : getWords t ≠ []) :
    similarityScore t t = 1 := by
  unfold similarityScore
  dsimp only
  have hne : (getWords t).isEmpty = false := by
    simpa [List.isEmpty_iff] using hw
  rw [hne]
  simp only [Bool.or_self, Bool.false_eq_true, if_false]
  have hn : termFreqSq (getWords t) ≠ 0 := termFreqSq_ne_zero hw
  have hnR : ((termFreqSq (getWords t) : ℕ) : ℝ) ≠ 0 := by exact_mod_cast hn
  have hnonneg : (0 : ℝ) ≤ ((termFreqSq (getWords t) : ℕ) : ℝ) := by positivity
  have hmag : Real.sqrt ((termFreqSq (getWords t) : ℕ) : ℝ) ≠ 0 := by
    rw [Real.sqrt_ne_zero hnonneg]
    exact hnR
  rw [if_pos ⟨hmag, hmag⟩, simDot_self, Real.mul_self_sqrt hnonneg, div_self hnR]
  unfold roundToReal
  rw [one_mul, show ((10 : ℝ) ^ 4) = (((10 ^ 4 : ℤ)) : ℝ) by norm_num, pyRound_intCast]
  norm_num

theorem similarityScore_empty_left (t2 : PyStr) : similarityScore [] t2 = 0 := rfl

/-- C7 counterexample: "123" is a non-empty text, but it contains no
letter runs, so compute_similarity("123", "123") returns 0.0, not the
claimed 1.0. -/
theorem C7_claim_counterexample :
    "123".data ≠ ([] : PyStr)
    ∧ similarityScore "123".data "123".data = 0
    ∧ (0 : ℝ) ≠ 1 :=
  ⟨by decide, rfl, by norm_num⟩

/-- C7 (amended): compute_similarity(text, text) returns 1.0 for every
text containing at least one word (a maximal ASCII-letter run), and
compute_similarity("", anything) returns 0.0. -/
theorem C7_similarity_identities (t1 t2 : PyStr) :
    (getWords t1 ≠ [] → similarityScore t1 t1 = 1)
    ∧ similarityScore "".data t2 = 0 :=
  ⟨fun hw => similarityScore_self hw, similarityScore_empty_left t2⟩

/-- C7 witness: the theorem applied to "hello world" and "anything". -/
theorem C7_similarity_identities_witness :
    getWords "hello world".data ≠ []
    ∧ similarityScore "hello world".data "hello world".data = 1
    ∧ similarityScore "".data "anything".data = 0 :=
  ⟨by decide,
    (C7_similarity_identities "hello world".data "anything".data).1 (by decide),
    (C7_similarity_identities "hello world".data "anything".data).2⟩

/-- C1 counterexample: the link-local literal 169.254.169.254 resolves to
an address inside 169.254.0.0/16, yet validate_url rejects it with the
deny-list BlockedHost error (it is in _ALWAYS_BLOCKED_HOSTS, checked
before resolution), not with the claimed BlockedNetwork error. -/
theorem C1_claim_counterexample :
    validate_url ⟨"http", some "169.254.169.254", "http://169.254.169.254/"⟩ []
        (fun _ => .ok [.v4 0xA9FEA9FE])
      = .error .blockedHost
    ∧ isBlockedIp (.v4 0xA9FEA9FE) = true
    ∧ ValidationError.blockedHost ≠ ValidationError.blockedNetwork :=
  ⟨rfl, by decide, by decide⟩

/-- C1 (amended): for every http/https URL with a present hostname that is
neither on the fixed deny-list nor matched by a blocked pattern:
resolution failure yields unresolvableHost, any blocked resolved address
yields blockedNetwork, and all-public resolution succeeds.  (A hostname on
the deny-list — such as the IP literal 169.254.169.254 — instead fails
earlier with blockedHost.) -/
theorem C1_validate_url_cases (u : UrlParts) (patterns : List (String → Bool))
    (resolve : String → Except Unit (List IPAddr)) (host : String)
    (hs : u.scheme = "http" ∨ u.scheme = "https")
    (hh : u.hostname = some host) (hne : host ≠ "")
    (hb : lowerS host ∉ alwaysBlockedHosts)
    (hp : patterns.any (fun p => p u.raw) = false) :
    (resolve host = .error () → validate_url u patterns resolve = .error .unresolvableHost)
    ∧ (∀ ips, resolve host = .ok ips → ips.any isBlockedIp = true →
        validate_url u patterns resolve = .error .blockedNetwork)
    ∧ (∀ ips, resolve host = .ok ips → ips.any isBlockedIp = false →
        validate_url u patterns resolve = .ok u.raw) := by
  have hsch : ¬ ¬ (u.scheme = "http" ∨ u.scheme = "https") := not_not.mpr hs
  refine ⟨?_, ?_, ?_⟩
  · intro hr
    simp [validate_url, hsch, hh, hne, hb, hp, hr]
  · intro ips hr hblk
    simp [validate_url, hsch, hh, hne, hb, hp, hr, hblk]
  · intro ips hr hblk
    simp [validate_url, hsch, hh, hne, hb, hp, hr, hblk]

/-- C1 witness: the success case of the theorem at a URL whose single
resolved address 93.184.216.34 is publicly routable, plus the blocked case
at the loopback literal via demoResolve. -/
theorem C1_validate_url_cases_witness :
    (pubUrl.scheme = "http" ∨ pubUrl.scheme = "https")
    ∧ pubUrl.hostname = some "public.example"
    ∧ lowerS "public.example" ∉ alwaysBlockedHosts
    ∧ ([] : List (String → Bool)).any (fun p => p pubUrl.raw) = false
    ∧ isBlockedIp (.v4 1572395042) = false
    ∧ validate_url pubUrl [] demoResolve = .ok pubUrl.raw :=
  ⟨by decide, rfl, by decide, by decide, by decide,
    (C1_validate_url_cases pubUrl [] demoResolve "public.example"
        (by decide) rfl (by decide) (by decide) (by decide)).2.2
      [.v4 1572395042] rfl (by decide)⟩

/-- C2: fetch_html validates only the requested URL; the redirect target
is never re-validated.  With a network that redirects the validated
public URL to a loopback host, fetch_html returns the loopback content
and final URL even though 127.0.0.1 lies inside the blocked 127.0.0.0/8
range — the code contradicts the spec's explicit requirement to validate
the final URL's host. -/
theorem C2_fetch_returns_blocked_final_url :
    fetch_html pubUrl [] demoResolve redirectingNet
        = .ok ("internal-secret".data, "http://127.0.0.1/")
    ∧ demoResolve "127.0.0.1" = .ok [.v4 0x7F000001]
    ∧ isBlockedIp (.v4 0x7F000001) = true :=
  ⟨rfl, rfl, by decide⟩

/-- C3 counterexample: a response that declares no content-type at all
(the header default "") is accepted and its body returned, not rejected
with UnsupportedContentType as claimed: the code's guard is skipped for a
falsy content-type string. -/
theorem C3_claim_counterexample :
    fetch_html pubUrl [] demoResolve emptyCtNet
        = .ok ("raw-pdf-bytes".data, "http://public.example/")
    ∧ (emptyCtNet pubUrl.raw).contentType = [] :=
  ⟨rfl, rfl⟩

/-- C3 (amended): for every response that declares a non-empty
content-type mentioning neither "html" nor "text" (case-insensitively),
fetch_html fails with the UnsupportedContentType error; a response with no
declared content-type is accepted. -/
theorem C3_unsupported_content_type (u : UrlParts) (patterns : List (String → Bool))
    (resolve : String → Except Unit (List IPAddr)) (net : String → HttpResponse)
    (hok : validate_url u patterns resolve = .ok u.raw)
    (hst : (net u.raw).status < 400)
    (hct : (net u.raw).contentType ≠ [])
    (hhtml : listHasSub (pyLower (net u.raw).contentType) "html".data = false)
    (htext : listHasSub (pyLower (net u.raw).contentType) "text".data = false) :
    fetch_html u patterns resolve net = .error .unsupportedContentType := by
  unfold fetch_html
  rw [hok]
  have h1 : ¬ (400 ≤ (net u.raw).status) := not_le.mpr hst
  have h2 : (net u.raw).contentType.isEmpty = false := by
    simpa [List.isEmpty_iff] using hct
  simp [h1, h2, hhtml, htext]

/-- C3 witness: the theorem applied to a JSON response. -/
theorem C3_unsupported_content_type_witness :
    validate_url pubUrl [] demoResolve = .ok pubUrl.raw
    ∧ (jsonNet pubUrl.raw).status < 400
    ∧ (jsonNet pubUrl.raw).contentType ≠ []
    ∧ listHasSub (pyLower (jsonNet pubUrl.raw).contentType) "html".data = false
    ∧ listHasSub (pyLower (jsonNet pubUrl.raw).contentType) "text".data = false
    ∧ fetch_html pubUrl [] demoResolve jsonNet = .error .unsupportedContentType :=
  ⟨rfl, by decide, by decide, by decide, by decide,
    C3_unsupported_content_type pubUrl [] demoResolve jsonNet rfl
      (by decide) (by decide) (by decide) (by decide)⟩

/-- C8 counterexample: an empty payload is stored but reported as absent
by the immediately following read (the memory tier's `if value:` test is
false for an empty dict), refuting the round-trip claim for every
payload. -/
theorem C8_claim_counterexample :
    get_cached (set_cached memOnlyState 0 ("analyze", "k") [] none) 0 ("analyze", "k")
      = none
    ∧ (none : Option Payload) ≠ some [] :=
  ⟨by decide, by decide⟩

/-- C8 (amended): in the in-memory configuration (shared tier
unavailable), for every non-empty payload, a set followed by a get of the
same key returns the payload while the entry is unexpired, returns absent
once the cache-wide TTL has elapsed, and a never-set key reads as
absent. -/
theorem C8_cache_roundtrip (s : CacheState) (now now2 : ℚ) (k : CacheKey)
    (v : Payload) (ttl : Option ℤ)
    (hA : s.redisAvail = false) (hv : v ≠ []) :
    (now2 < now + (cacheTtl : ℚ) → get_cached (set_cached s now k v ttl) now2 k = some v)
    ∧ (now + (cacheTtl : ℚ) ≤ now2 → get_cached (set_cached s now k v ttl) now2 k = none)
    ∧ (∀ k2, s.mem k2 = none → get_cached s now k2 = none) := by
  refine ⟨?_, ?_, ?_⟩
  · intro h
    simp [get_cached, set_cached, memLookup, hA, h, List.isEmpty_iff, hv]
  · intro h
    simp [get_cached, set_cached, memLookup, hA, not_lt.mpr h]
  · intro k2 hk
    simp [get_cached, memLookup, hA, hk]

/-- C8 witness: the theorem applied to a concrete payload before expiry,
after expiry, and at an unset key. -/
theorem C8_cache_roundtrip_witness :
    memOnlyState.redisAvail = false
    ∧ [("words", "12")] ≠ ([] : Payload)
    ∧ get_cached (set_cached memOnlyState 0 ("analyze", "k") [("words", "12")] none)
        10 ("analyze", "k") = some [("words", "12")]
    ∧ get_cached (set_cached memOnlyState 0 ("analyze", "k") [("words", "12")] none)
        3600 ("analyze", "k") = none
    ∧ get_cached memOnlyState 0 ("other", "key") = none :=
  ⟨rfl, by decide,
    (C8_cache_roundtrip memOnlyState 0 10 ("analyze", "k") [("words", "12")] none
        rfl (by decide)).1 (by norm_num [cacheTtl]),
    (C8_cache_roundtrip memOnlyState 0 3600 ("analyze", "k") [("words", "12")] none
        rfl (by decide)).2.1 (by norm_num [cacheTtl]),
    (C8_cache_roundtrip memOnlyState 0 3600 ("analyze", "k") [("words", "12")] none
        rfl (by decide)).2.2 ("other", "key") rfl⟩

/-- C9 counterexample: even with the shared tier failing and the local
tier written, a get immediately after setting an empty payload observes
absent, not the written payload — the read-after-write consequence fails
for the empty dict. -/
theorem C9_claim_counterexample :
    get_cached (set_cached failingRedisState 0 ("analyze", "k") [] none) 0 ("analyze", "k")
      = none
    ∧ (set_cached failingRedisState 0 ("analyze", "k") [] none).mem ("analyze", "k")
      = some ([], (0 : ℚ) + (cacheTtl : ℚ)) :=
  ⟨by decide, by decide⟩

/-- C9 (amended): the local tier is written on every set regardless of the
shared tier's state; a failing shared tier is treated as a miss on read
and a no-op on write, never surfaced; and a get immediately after a set of
a non-empty payload observes that payload under every shared-tier
behaviour, including a failing one. -/
theorem C9_cache_best_effort (s : CacheState) (now : ℚ) (k : CacheKey)
    (v : Payload) (ttl : Option ℤ) :
    ((set_cached s now k v ttl).mem k = some (v, now + (cacheTtl : ℚ)))
    ∧ (s.redisFailing = true → get_cached s now k = memLookup s now k)
    ∧ (s.redisFailing = true → (set_cached s now k v ttl).redis = s.redis)
    ∧ (v ≠ [] → get_cached (set_cached s now k v ttl) now k = some v) := by
  refine ⟨?_, ?_, ?_, ?_⟩
  · simp [set_cached]
  · intro h; simp [get_cached, h]
  · intro h; simp [set_cached, h]
  · intro hv
    obtain ⟨mem, avail, redis, failing⟩ := s
    have h36 : now < now + (cacheTtl : ℚ) := by norm_num [cacheTtl]
    cases avail <;> cases failing <;>
      simp only [get_cached, set_cached, memLookup] <;>
      simp [h36, List.isEmpty_iff, hv]

/-- C9 witness: the theorem applied to a failing shared tier and a
non-empty payload. -/
theorem C9_cache_best_effort_witness :
    ((set_cached failingRedisState 0 ("analyze", "k") [("a", "b")] none).mem ("analyze", "k")
      = some ([("a", "b")], (0 : ℚ) + (cacheTtl : ℚ)))
    ∧ get_cached failingRedisState 0 ("analyze", "k")
      = memLookup failingRedisState 0 ("analyze", "k")
    ∧ (set_cached failingRedisState 0 ("analyze", "k") [("a", "b")] none).redis
      = failingRedisState.redis
    ∧ get_cached (set_cached failingRedisState 0 ("analyze", "k") [("a", "b")] none)
        0 ("analyze", "k") = some [("a", "b")] :=
  ⟨(C9_cache_best_effort failingRedisState 0 ("analyze", "k") [("a", "b")] none).1,
    (C9_cache_best_effort failingRedisState 0 ("analyze", "k") [("a", "b")] none).2.1 rfl,
    (C9_cache_best_effort failingRedisState 0 ("analyze", "k") [("a", "b")] none).2.2.1 rfl,
    (C9_cache_best_effort failingRedisState 0 ("analyze", "k") [("a", "b")] none).2.2.2
      (by decide)⟩

/-- C10: the per-call ttl only reaches the shared tier; the local entry's
expiry is always now + the globally configured cache TTL, so with the
shared tier disabled and a per-call ttl longer than the global one, the
entry is already absent at the global expiry time. -/
theorem C10_local_ttl_is_global (s : CacheState) (now : ℚ) (k : CacheKey)
    (v : Payload) (t : ℤ) (ht : t ≠ cacheTtl) :
    ((set_cached s now k v (some t)).mem k = some (v, now + (cacheTtl : ℚ)))
    ∧ (s.redisAvail = false →
        get_cached (set_cached s now k v (some t)) (now + (cacheTtl : ℚ)) k = none) := by
  constructor
  · simp [set_cached]
  · intro hA
    simp [get_cached, set_cached, memLookup, hA]

/-- C10 witness: the theorem applied with a per-call ttl of 7200 seconds
against the configured 3600. -/
theorem C10_local_ttl_is_global_witness :
    (7200 : ℤ) ≠ cacheTtl
    ∧ ((set_cached memOnlyState 0 ("analyze", "k") [("a", "b")] (some 7200)).mem ("analyze", "k")
      = some ([("a", "b")], (0 : ℚ) + (cacheTtl : ℚ)))
    ∧ get_cached (set_cached memOnlyState 0 ("analyze", "k") [("a", "b")] (some 7200))
        ((0 : ℚ) + (cacheTtl : ℚ)) ("analyze", "k") = none :=
  ⟨by decide,
    (C10_local_ttl_is_global memOnlyState 0 ("analyze", "k") [("a", "b")] 7200 (by decide)).1,
    (C10_local_ttl_is_global memOnlyState 0 ("analyze", "k") [("a", "b")] 7200 (by decide)).2
      rfl⟩

end

end RXIQ
